import Mathlib

/-!
Verification of the blogcaster text-to-speech service.

Shallow embedding of the three Python modules of the repository:
`api.py` (cloud gTTS endpoint), `api_local.py` (local SpeechT5 endpoint) and
`app.py` (Streamlit front end).  Strings are modelled as Lean `String`s over
their character lists; the character classes of Python's `re` module and the
string methods used by the code (`lower`, `strip`, `split`, slicing) are
modelled for the ASCII and Latin-1 range, which covers every input the
theorems below quantify over or evaluate at.  Filesystem and network effects
are made explicit: the endpoints take the outcome of the external synthesis
call as a parameter and return, besides the HTTP-level result, the list of
observable events (synthesis invocations and file writes) they perform.
-/

namespace Blogcaster

/-- ASCII whitespace, the characters recognised by Python's `str.strip()`
with no argument and by the regex class `\s`: space, tab, newline, carriage
return, vertical tab, form feed. -/
def isPySpace (c : Char) : Bool :=
  c = ' ' || c = '\t' || c = '\n' || c = '\r' || c.toNat = 11 || c.toNat = 12

/-- Python `str.strip()`: remove leading and trailing whitespace. -/
def pyStrip (s : String) : String :=
  ⟨((s.data.dropWhile isPySpace).reverse.dropWhile isPySpace).reverse⟩

/-- One character of Python `str.lower()`: ASCII `A`–`Z` map to `a`–`z`, the
Latin-1 uppercase letters `À`–`Þ` (excluding `×`) map to their lowercase
forms 32 code points higher, anything else is unchanged.  (Characters above
U+00FF are outside the modelled range and left unchanged.) -/
def pyToLower (c : Char) : Char :=
  if 65 ≤ c.toNat && c.toNat ≤ 90 then Char.ofNat (c.toNat + 32)
  else if 192 ≤ c.toNat && c.toNat ≤ 222 && c.toNat != 215 then Char.ofNat (c.toNat + 32)
  else c

/-- Python `str.lower()` applied to a whole string. -/
def pyLower (s : String) : String := ⟨s.data.map pyToLower⟩

/-- The regex class `\w` of Python's `re` module on `str`: letters, digits
and underscore.  Unicode word characters are modelled for the Latin-1 range
(`ª`, `µ`, `º`, `À`–`ÿ` except `×` and `÷`); characters above U+00FF are
outside the modelled range. -/
def isWordChar (c : Char) : Bool :=
  (97 ≤ c.toNat && c.toNat ≤ 122) || (65 ≤ c.toNat && c.toNat ≤ 90) ||
  (48 ≤ c.toNat && c.toNat ≤ 57) || c = '_' ||
  c.toNat = 170 || c.toNat = 181 || c.toNat = 186 ||
  (192 ≤ c.toNat && c.toNat ≤ 255 && c.toNat != 215 && c.toNat != 247)

/-- The characters kept by `re.sub(r"[^\w\s-]", "", s)`: word characters,
whitespace and hyphens. -/
def keepChar (c : Char) : Bool := isWordChar c || isPySpace c || c = '-'

/-- The regex class `[-\s]`: hyphen or whitespace. -/
def isHyphenSpace (c : Char) : Bool := c = '-' || isPySpace c

/-- `re.sub(r"[-\s]+", "_", s)` on the character list of `s`: each maximal
run of hyphens/whitespace becomes a single underscore.  The boolean flag
records whether the previous character belonged to such a run (in which case
no further underscore is emitted for the current run). -/
def collapseAux : Bool → List Char → List Char
  | _, [] => []
  | inRun, c :: rest =>
    if isHyphenSpace c then
      if inRun then collapseAux true rest else '_' :: collapseAux true rest
    else c :: collapseAux false rest

/-- `re.sub(r"[-\s]+", "_", s)`. -/
def collapseRuns (l : List Char) : List Char := collapseAux false l

/-- Python `s.strip("_")`: remove leading and trailing underscores. -/
def stripUnderscores (l : List Char) : List Char :=
  ((l.dropWhile (fun c => c = '_')).reverse.dropWhile (fun c => c = '_')).reverse

/-- `sanitize_filename` from `api.py` lines 20–24 (`api_local.py` lines 74–77
are identical):
`s = re.sub(r"[^\w\s-]", "", text_snippet.lower())`;
`s = re.sub(r"[-\s]+", "_", s).strip("_")`;
`return s[:max_length]`. -/
def sanitize_filename (text_snippet : String) (max_length : Nat := 50) : String :=
  ⟨(stripUnderscores (collapseRuns
      ((text_snippet.data.map pyToLower).filter keepChar))).take max_length⟩

/-! ### The spec's reference algorithm for the Filename Deriver (§4.1)

A second definition of the sanitizer, written step by step following the
words of the specification: "lower-case the text; strip everything except
word characters, whitespace, and hyphens; collapse runs of hyphens/whitespace
into a single underscore; trim leading/trailing underscores; truncate to the
maximum length (default 50)."  It is compared with `sanitize_filename` (the
definition taken from the source) by the refinement theorem for claim C3. -/

/-- Spec §4.1, step 1: lower-case the text. -/
def lowercaseStep (l : List Char) : List Char := l.map pyToLower

/-- Spec §4.1, step 2: strip everything except word characters, whitespace,
and hyphens. -/
def stripOthersStep (l : List Char) : List Char := l.filter keepChar

/-- Spec §4.1, step 3: collapse each run of hyphens/whitespace into a single
underscore, written as a recursion that consumes a whole run at a time. -/
def collapseRunsStep : List Char → List Char
  | [] => []
  | c :: rest =>
    if isHyphenSpace c then '_' :: collapseRunsStep (rest.dropWhile isHyphenSpace)
    else c :: collapseRunsStep rest
termination_by l => l.length
decreasing_by
  · simp only [List.length_cons]
    exact Nat.lt_succ_of_le ((List.dropWhile_sublist _).length_le)
  · simp only [List.length_cons]
    exact Nat.lt_succ_self _

/-- Spec §4.1, step 4: trim leading and trailing underscores. -/
def trimStep (l : List Char) : List Char :=
  List.rdropWhile (fun c => c = '_') (l.dropWhile (fun c => c = '_'))

/-- Spec §4.1, step 5: truncate to the maximum length. -/
def truncateStep (maxLength : Nat) (l : List Char) : List Char := l.take maxLength

/-- The Filename Deriver exactly as the spec words it (§4.1). -/
def sanitize_filename_spec (text : String) (maxLength : Nat := 50) : String :=
  ⟨truncateStep maxLength (trimStep (collapseRunsStep (stripOthersStep
    (lowercaseStep text.data))))⟩

/-- The character class `[a-z0-9_]` from spec §8: the characters the spec
allows in the snippet portion of a derived filename. -/
def isSnippetChar (c : Char) : Bool :=
  (97 ≤ c.toNat && c.toNat ≤ 122) || (48 ≤ c.toNat && c.toNat ≤ 57) || c = '_'

/-! ### Data model of the endpoints -/

/-- The observable side effects of a conversion request: a synthesis-backend
invocation carrying the text handed to the backend, a write of a file into
the artifact store (`MUSIC_DIR`), or an attempt to (re)load the local models.
The endpoint handlers never emit `modelLoad`: loading happens once when the
module `api_local.py` is imported, never per request. -/
inductive Event where
  | synthCall (text : String)
  | fileWrite (filename : String)
  | modelLoad
deriving DecidableEq, Repr

/-- The HTTP-level outcome of a request: a 200 JSON body
`{message, filename}` or an `HTTPException(status_code, detail)`. -/
inductive ApiResult where
  | success (message : String) (filename : String)
  | httpError (status : Nat) (detail : String)
deriving DecidableEq, Repr

/-- The HTTP status of a result (FastAPI returns 200 for a plain dict). -/
def ApiResult.status : ApiResult → Nat
  | .success _ _ => 200
  | .httpError s _ => s

/-- Process-wide state of `api_local.py` after the module-import model
loading block (lines 18–67): either everything loaded (`MODEL_LOADING_ERROR
is None`, `model`/`processor`/`vocoder`/`speaker_embedding` set), or the
block raised and `MODEL_LOADING_ERROR` records the message. -/
inductive ModelState where
  | loaded
  | failed (err : String)
deriving DecidableEq, Repr

/-- Outcome of the external synthesis step, which the embedding takes as a
parameter: success, a `RuntimeError` with the given message (e.g. CUDA out of
memory), or any other exception with the given message. -/
inductive SynthOutcome where
  | ok
  | runtimeError (msg : String)
  | otherError (msg : String)
deriving DecidableEq, Repr

/-- The snippet source expression shared by both endpoints:
`request.text.split(".")[0] if "." in request.text else request.text` —
the part of the text before the first period when one occurs. -/
def snippetSource (text : String) : String :=
  if text.data.contains '.' then ⟨text.data.takeWhile (fun c => c != '.')⟩ else text

/-- Decidable substring test on character lists, modelling Python's
`pat in s`. -/
def hasSubstr (pat : List Char) : List Char → Bool
  | [] => pat.isEmpty
  | c :: rest => pat.isPrefixOf (c :: rest) || hasSubstr pat rest

namespace api

/-- `convert_text_to_speech` from `api.py` lines 28–47 (cloud/gTTS variant).
`timestamp` stands for `datetime.datetime.now().strftime("%Y%m%d_%H%M%S")`
and `gtts` for the outcome of `gTTS(...)` + `tts.save(filepath)`: `none` when
the external call succeeds (the encoded stream is then written verbatim to
the target path), `some msg` when it raises an exception with message `msg`.
The gTTS library is external to the repository; per spec §4.2 a failed cloud
call produces no artifact, so the failure branch records no `fileWrite`. -/
def convert_text_to_speech (text timestamp : String) (gtts : Option String) :
    ApiResult × List Event :=
  if (pyStrip text).data.isEmpty then
    (.httpError 400 "Text input cannot be empty.", [])
  else
    let text_snippet := sanitize_filename (snippetSource text)
    let filename := timestamp ++ "_" ++ text_snippet ++ ".mp3"
    match gtts with
    | none =>
      (.success ("Audio saved as " ++ filename) filename,
       [.synthCall text, .fileWrite filename])
    | some msg =>
      (.httpError 500 ("Error generating audio: " ++ msg), [.synthCall text])

end api

namespace api_local

/-- `convert_text_to_speech` from `api_local.py` lines 81–139 (local SpeechT5
variant).  In state `.failed err` the handler raises 503 before anything else
(lines 82–85); the `hasattr` check of lines 86–89 passes in state `.loaded`
because `SpeechT5ForTextToSpeech.generate_speech` and a callable processor
exist whenever loading succeeded, as does `speaker_embedding` (line 99).
`outcome` is the outcome of `processor(...)`/`model.generate_speech(...)`;
on success the waveform is a tensor in memory and `sf.write` then stores it
at the target path (lines 110–126); a `RuntimeError` whose message mentions
out-of-memory gets the dedicated CUDA detail (lines 129–134). -/
def convert_text_to_speech (st : ModelState) (text timestamp : String)
    (outcome : SynthOutcome) : ApiResult × List Event :=
  match st with
  | .failed err => (.httpError 503 ("Service Unavailable: " ++ err), [])
  | .loaded =>
    if (pyStrip text).data.isEmpty then
      (.httpError 400 "Text input cannot be empty.", [])
    else
      match outcome with
      | .ok =>
        let text_snippet := sanitize_filename (snippetSource text)
        let filename := timestamp ++ "_" ++ text_snippet ++ ".wav"
        (.success ("Audio saved as " ++ filename) filename,
         [.synthCall text, .fileWrite filename])
      | .runtimeError msg =>
        if hasSubstr "out of memory".data (pyLower msg).data then
          (.httpError 500
            ("Error generating audio: CUDA out of memory. Try shorter text or a smaller batch if applicable. Details: "
              ++ msg),
           [.synthCall text])
        else
          (.httpError 500 ("Error generating audio: " ++ msg), [.synthCall text])
      | .otherError msg =>
        (.httpError 500 ("An unexpected error occurred during TTS: " ++ msg),
         [.synthCall text])

end api_local

/-! ### The front end's listing (`app.py`) -/

/-- A directory entry: a filename together with its last-modification time
(`os.path.getmtime`), modelled at whole-number resolution. -/
structure FileEntry where
  name : String
  mtime : Nat
deriving DecidableEq, Repr

/-- What the filesystem presents to `get_audio_files`: the directory is
absent (`os.path.exists` is false), or enumerating it yields the given
entries, or the `try` body (listing or the `getmtime` calls made while
sorting) raises. -/
inductive DirListing where
  | absent
  | ok (entries : List FileEntry)
  | raises
deriving DecidableEq, Repr

/-- Python `s.endswith(suffix)` on the character lists. -/
def pyEndsWith (s suffix : String) : Bool := suffix.data.isSuffixOf s.data

/-- The filename filter of `app.py` line 22: `f.endswith((".wav", ".mp3"))`. -/
def isAudioName (s : String) : Bool := pyEndsWith s ".wav" || pyEndsWith s ".mp3"

/-- Insert an entry into a list sorted by modification time descending,
keeping it after existing entries with the same time. -/
def insertByMtime (e : FileEntry) : List FileEntry → List FileEntry
  | [] => [e]
  | f :: rest =>
    if f.mtime ≤ e.mtime then e :: f :: rest else f :: insertByMtime e rest

/-- A stable sort by modification time descending, modelling
`files.sort(key=lambda f: os.path.getmtime(...), reverse=True)`. -/
def sortByMtimeDesc : List FileEntry → List FileEntry
  | [] => []
  | e :: rest => insertByMtime e (sortByMtimeDesc rest)

/-- The entries `get_audio_files` would present, before dropping the
modification times: filtered to audio extensions and sorted newest first. -/
def get_audio_entries : DirListing → List FileEntry
  | .absent => []
  | .raises => []
  | .ok entries => sortByMtimeDesc (entries.filter (fun e => isAudioName e.name))

/-- `get_audio_files` from `app.py` lines 16–29: `[]` when `MUSIC_DIR` does
not exist; otherwise the `.wav`/`.mp3` names sorted by modification time,
newest first; `[]` again when the `try` body raises (the `except` branch
shows a sidebar notice and returns `[]`). -/
def get_audio_files (d : DirListing) : List String :=
  (get_audio_entries d).map (·.name)

/-! ## Helper lemmas -/

lemma collapseAux_eq_collapseRunsStep (l : List Char) :
    collapseAux false l = collapseRunsStep l ∧
    collapseAux true l = collapseRunsStep (l.dropWhile isHyphenSpace) := by
  induction l with
  | nil => simp [collapseAux, collapseRunsStep]
  | cons c rest ih =>
    by_cases h : isHyphenSpace c
    · constructor
      · simp only [collapseAux, h, if_true]
        rw [collapseRunsStep]
        simp [h, ih.2]
      · simp only [collapseAux, h, if_true]
        rw [List.dropWhile_cons_of_pos h]
        exact ih.2
    · constructor
      · simp only [collapseAux, h, if_false]
        rw [collapseRunsStep]
        simp [h, ih.1]
      · simp only [collapseAux, h, if_false]
        rw [List.dropWhile_cons_of_neg h]
        rw [collapseRunsStep]
        simp [h, ih.1]

lemma mem_collapseAux {c : Char} :
    ∀ {b : Bool} {l : List Char}, c ∈ collapseAux b l →
      c = '_' ∨ (c ∈ l ∧ isHyphenSpace c = false) := by
  intro b l
  induction l generalizing b with
  | nil => simp [collapseAux]
  | cons d rest ih =>
    intro h
    by_cases hd : isHyphenSpace d = true
    · cases b with
      | true =>
        simp only [collapseAux, hd, if_true] at h
        rcases ih h with h1 | ⟨h2, h3⟩
        · exact Or.inl h1
        · exact Or.inr ⟨List.mem_cons_of_mem _ h2, h3⟩
      | false =>
        simp [collapseAux, hd] at h
        rcases h with h1 | h1
        · exact Or.inl h1
        · rcases ih h1 with h2 | ⟨h2, h3⟩
          · exact Or.inl h2
          · exact Or.inr ⟨List.mem_cons_of_mem _ h2, h3⟩
    · simp [collapseAux, hd] at h
      rcases h with h1 | h1
      · subst h1
        exact Or.inr ⟨List.mem_cons_self _ _, by simpa using hd⟩
      · rcases ih h1 with h2 | ⟨h2, h3⟩
        · exact Or.inl h2
        · exact Or.inr ⟨List.mem_cons_of_mem _ h2, h3⟩

lemma mem_stripUnderscores {c : Char} {l : List Char} (h : c ∈ stripUnderscores l) :
    c ∈ l := by
  unfold stripUnderscores at h
  rw [List.mem_reverse] at h
  have h1 := (List.dropWhile_sublist _).subset h
  rw [List.mem_reverse] at h1
  exact (List.dropWhile_sublist _).subset h1

/-- Every character below U+0080 that the sanitizer can keep after
lower-casing lies in `[a-z0-9_]` (a finite check over the ASCII range). -/
lemma ascii_word_char_is_snippet_char :
    ∀ n < 128, isWordChar (pyToLower (Char.ofNat n)) = true →
      isSnippetChar (pyToLower (Char.ofNat n)) = true := by decide

lemma sanitize_filename_ascii_chars {s : String} {n : Nat}
    (hascii : ∀ c ∈ s.data, c.toNat < 128) :
    ∀ c ∈ (sanitize_filename s n).data, isSnippetChar c = true := by
  intro c hc
  unfold sanitize_filename at hc
  have hc1 : c ∈ stripUnderscores (collapseRuns ((s.data.map pyToLower).filter keepChar)) :=
    List.take_subset _ _ hc
  have hc2 := mem_stripUnderscores hc1
  rcases mem_collapseAux hc2 with h1 | ⟨h2, h3⟩
  · subst h1; decide
  · have hkeep : keepChar c = true := List.of_mem_filter h2
    have hmem : c ∈ s.data.map pyToLower := List.mem_of_mem_filter h2
    rcases List.mem_map.mp hmem with ⟨a, ha, rfl⟩
    have hword : isWordChar (pyToLower a) = true := by
      revert hkeep h3
      unfold keepChar isHyphenSpace
      cases hw : isWordChar (pyToLower a) <;> cases hs : isPySpace (pyToLower a) <;> simp
    have hlt : a.toNat < 128 := hascii a ha
    have h4 := ascii_word_char_is_snippet_char a.toNat hlt
    rw [Char.ofNat_toNat] at h4
    exact h4 hword

lemma hasSubstr_nil (l : List Char) : hasSubstr [] l = true := by
  cases l <;> simp [hasSubstr, List.isPrefixOf]

lemma hasSubstr_append_right {pat l : List Char} (m : List Char)
    (h : hasSubstr pat l = true) : hasSubstr pat (l ++ m) = true := by
  induction l with
  | nil =>
    simp only [hasSubstr, List.isEmpty_iff] at h
    subst h
    exact hasSubstr_nil m
  | cons c rest ih =>
    simp only [hasSubstr, Bool.or_eq_true] at h ⊢
    rcases h with h | h
    · left
      rw [List.isPrefixOf_iff_prefix] at h ⊢
      exact h.trans (List.prefix_append _ _)
    · right
      exact ih h

lemma mem_insertByMtime {a e : FileEntry} :
    ∀ {l : List FileEntry}, a ∈ insertByMtime e l ↔ a = e ∨ a ∈ l := by
  intro l
  induction l with
  | nil => simp [insertByMtime]
  | cons f rest ih =>
    by_cases h : f.mtime ≤ e.mtime
    · simp [insertByMtime, h, List.mem_cons]
    · simp only [insertByMtime, h, if_false, List.mem_cons, ih]
      tauto

lemma mem_sortByMtimeDesc {a : FileEntry} :
    ∀ {l : List FileEntry}, a ∈ sortByMtimeDesc l ↔ a ∈ l := by
  intro l
  induction l with
  | nil => simp [sortByMtimeDesc]
  | cons e rest ih => simp [sortByMtimeDesc, mem_insertByMtime, ih]

lemma pairwise_insertByMtime {e : FileEntry} :
    ∀ {l : List FileEntry}, l.Pairwise (fun a b => b.mtime ≤ a.mtime) →
      (insertByMtime e l).Pairwise (fun a b => b.mtime ≤ a.mtime) := by
  intro l
  induction l with
  | nil => intro _; simp [insertByMtime]
  | cons f rest ih =>
    intro h
    rw [List.pairwise_cons] at h
    by_cases hle : f.mtime ≤ e.mtime
    · simp only [insertByMtime, hle, if_true]
      rw [List.pairwise_cons]
      refine ⟨?_, List.pairwise_cons.mpr h⟩
      intro x hx
      rcases List.mem_cons.mp hx with rfl | hx
      · exact hle
      · exact (h.1 x hx).trans hle
    · simp only [insertByMtime, hle, if_false]
      rw [List.pairwise_cons]
      refine ⟨?_, ih h.2⟩
      intro x hx
      rcases mem_insertByMtime.mp hx with rfl | hx
      · exact Nat.le_of_lt (Nat.lt_of_not_le hle)
      · exact h.1 x hx

lemma pairwise_sortByMtimeDesc :
    ∀ l : List FileEntry, (sortByMtimeDesc l).Pairwise (fun a b => b.mtime ≤ a.mtime) := by
  intro l
  induction l with
  | nil => simp [sortByMtimeDesc]
  | cons e rest ih => exact pairwise_insertByMtime ih

/-! ## Claim theorems -/

/-- C3: For every input string and maximum length, the filename sanitizer of
`api.py`/`api_local.py` computes exactly the spec §4.1 reference algorithm:
lower-case the text, strip every character except word characters,
whitespace and hyphens, collapse each run of hyphens/whitespace into a
single underscore, trim leading and trailing underscores, truncate to the
maximum length (50 by default in both definitions). -/
theorem sanitize_filename_matches_spec (s : String) (n : Nat) :
    sanitize_filename s n = sanitize_filename_spec s n := by
  unfold sanitize_filename sanitize_filename_spec collapseRuns stripUnderscores
    truncateStep trimStep stripOthersStep lowercaseStep
  rw [(collapseAux_eq_collapseRunsStep _).1]
  rfl

/-- C1: A request whose text is empty or whitespace-only is rejected with the
400 "Text input cannot be empty." error and an empty event trace — so no
synthesis call and no file write — in the cloud endpoint for every backend
outcome, and in the local endpoint in the successfully-loaded state for
every synthesis outcome (in the failed-load state the 503 guard fires first,
see the C5 theorem). -/
theorem whitespace_input_rejected (text timestamp : String)
    (h : (pyStrip text).data.isEmpty = true) :
    (∀ gtts, api.convert_text_to_speech text timestamp gtts =
      (.httpError 400 "Text input cannot be empty.", [])) ∧
    (∀ outcome, api_local.convert_text_to_speech .loaded text timestamp outcome =
      (.httpError 400 "Text input cannot be empty.", [])) := by
  constructor
  · intro gtts
    simp [api.convert_text_to_speech, h]
  · intro outcome
    simp [api_local.convert_text_to_speech, h]

/-- C1 witness: the concrete whitespace-only request `" \t "`. -/
theorem whitespace_input_rejected_witness :
    (pyStrip " \t ").data.isEmpty = true ∧
    api.convert_text_to_speech " \t " "20240101_120000" none =
      (.httpError 400 "Text input cannot be empty.", []) ∧
    api_local.convert_text_to_speech .loaded " \t " "20240101_120000" .ok =
      (.httpError 400 "Text input cannot be empty.", []) :=
  ⟨by decide,
   (whitespace_input_rejected " \t " "20240101_120000" (by decide)).1 none,
   (whitespace_input_rejected " \t " "20240101_120000" (by decide)).2 .ok⟩

/-- C5: In the local-model variant, when model loading failed at startup
every conversion request — whatever its text, including whitespace-only text
that would otherwise get the 400 validation error, and whatever the backend
would have done — receives the 503 Service Unavailable error carrying the
recorded load failure, and the event trace is empty: the load is not
re-attempted, nothing is synthesized, nothing is written. -/
theorem load_failure_fails_fast (err text timestamp : String) (outcome : SynthOutcome) :
    api_local.convert_text_to_speech (.failed err) text timestamp outcome =
      (.httpError 503 ("Service Unavailable: " ++ err), []) ∧
    (api_local.convert_text_to_speech (.failed err) text timestamp outcome).1.status = 503 ∧
    (api_local.convert_text_to_speech (.failed err) text timestamp outcome).1.status ≠ 400 ∧
    Event.modelLoad ∉ (api_local.convert_text_to_speech (.failed err) text timestamp outcome).2 := by
  refine ⟨rfl, rfl, by simp [api_local.convert_text_to_speech, ApiResult.status], ?_⟩
  intro hmem
  simp [api_local.convert_text_to_speech] at hmem

/-- C10: A failure raised while enumerating or sorting the directory yields
the empty listing — `get_audio_files` never propagates an exception — and
that value coincides with the listing of an empty store, so the two
situations are indistinguishable in the returned sequence. -/
theorem listing_failure_indistinguishable_from_empty :
    get_audio_files .raises = [] ∧
    get_audio_files .raises = get_audio_files (.ok []) :=
  ⟨rfl, rfl⟩

/-- C6: The listing returns only names ending in `.wav` or `.mp3`; the
entries it presents are ordered by modification time descending (with
distinct times, the most recently modified first), and the returned names
are exactly those entries' names in that order; a missing directory yields
`[]`, as does a directory with no matching file. -/
theorem listing_contract :
    (∀ d n, n ∈ get_audio_files d → isAudioName n = true) ∧
    (∀ d, (get_audio_entries d).Pairwise (fun a b => b.mtime ≤ a.mtime)) ∧
    (∀ d, get_audio_files d = (get_audio_entries d).map (·.name)) ∧
    get_audio_files .absent = [] ∧
    (∀ entries, (∀ e ∈ entries, isAudioName e.name = false) →
      get_audio_files (.ok entries) = []) := by
  refine ⟨?_, ?_, fun d => rfl, rfl, ?_⟩
  · intro d n hn
    rcases List.mem_map.mp hn with ⟨e, he, rfl⟩
    cases d with
    | absent => simp [get_audio_entries] at he
    | raises => simp [get_audio_entries] at he
    | ok entries =>
      have he2 : e ∈ entries.filter (fun e => isAudioName e.name) := by
        simpa [get_audio_entries, mem_sortByMtimeDesc] using he
      exact (List.mem_filter.mp he2).2
  · intro d
    cases d with
    | absent => simp [get_audio_entries]
    | raises => simp [get_audio_entries]
    | ok entries => exact pairwise_sortByMtimeDesc _
  · intro entries hall
    have hnil : entries.filter (fun e => isAudioName e.name) = [] := by
      rw [List.filter_eq_nil_iff]
      intro e he
      simp [hall e he]
    simp [get_audio_files, get_audio_entries, hnil, sortByMtimeDesc]

/-- C6 witness: concrete directories — one with a wav and an mp3, one with
only a text file, and the absent directory. -/
theorem listing_contract_witness :
    isAudioName "b.wav" = true ∧
    get_audio_files (.ok [⟨"a.txt", 7⟩]) = [] ∧
    get_audio_files .absent = [] :=
  ⟨listing_contract.1 (.ok [⟨"b.wav", 1⟩, ⟨"a.mp3", 5⟩]) "b.wav" (by decide),
   listing_contract.2.2.2.2 [⟨"a.txt", 7⟩] (by decide),
   listing_contract.2.2.2.1⟩

/-- C4: For a valid text containing a period, the filename snippet is built
by sanitizing the part of the text before the first period, while every
synthesis invocation recorded in either endpoint's trace — for any backend
outcome — carries the full original text, never the truncated snippet. -/
theorem first_sentence_snippet_full_text_synthesis (text timestamp : String)
    (hv : (pyStrip text).data.isEmpty = false)
    (hdot : text.data.contains '.' = true) :
    snippetSource text = ⟨text.data.takeWhile (fun c => c != '.')⟩ ∧
    (api.convert_text_to_speech text timestamp none).1 =
      .success
        ("Audio saved as " ++ (timestamp ++ "_" ++
          sanitize_filename ⟨text.data.takeWhile (fun c => c != '.')⟩ ++ ".mp3"))
        (timestamp ++ "_" ++
          sanitize_filename ⟨text.data.takeWhile (fun c => c != '.')⟩ ++ ".mp3") ∧
    (api_local.convert_text_to_speech .loaded text timestamp .ok).1 =
      .success
        ("Audio saved as " ++ (timestamp ++ "_" ++
          sanitize_filename ⟨text.data.takeWhile (fun c => c != '.')⟩ ++ ".wav"))
        (timestamp ++ "_" ++
          sanitize_filename ⟨text.data.takeWhile (fun c => c != '.')⟩ ++ ".wav") ∧
    (∀ gtts s, Event.synthCall s ∈ (api.convert_text_to_speech text timestamp gtts).2 →
      s = text) ∧
    (∀ st outcome s,
      Event.synthCall s ∈ (api_local.convert_text_to_speech st text timestamp outcome).2 →
      s = text) := by
  have hsnip : snippetSource text = ⟨text.data.takeWhile (fun c => c != '.')⟩ := by
    rw [snippetSource, if_pos hdot]
  refine ⟨hsnip, ?_, ?_, ?_, ?_⟩
  · simp [api.convert_text_to_speech, hv, hsnip]
  · simp [api_local.convert_text_to_speech, hv, hsnip]
  · intro gtts s hs
    cases gtts with
    | none => simpa [api.convert_text_to_speech, hv] using hs
    | some m => simpa [api.convert_text_to_speech, hv] using hs
  · intro st outcome s hs
    cases st with
    | failed err => simp [api_local.convert_text_to_speech] at hs
    | loaded =>
      cases outcome with
      | ok => simpa [api_local.convert_text_to_speech, hv] using hs
      | runtimeError m =>
        cases hoom : hasSubstr "out of memory".data (pyLower m).data <;>
          simpa [api_local.convert_text_to_speech, hv, hoom] using hs
      | otherError m => simpa [api_local.convert_text_to_speech, hv] using hs

/-- C4 witness: the spec's own scenario text, first sentence "Hello world". -/
theorem first_sentence_snippet_full_text_synthesis_witness :
    (api_local.convert_text_to_speech .loaded "Hello world. This is a test."
        "20240101_120000" .ok).1 =
      .success "Audio saved as 20240101_120000_hello_world.wav"
        "20240101_120000_hello_world.wav" := by
  have h := (first_sentence_snippet_full_text_synthesis "Hello world. This is a test."
    "20240101_120000" (by decide) (by decide)).2.2.1
  rw [h]
  decide

/-- C7: No artifact is written when synthesis fails: with a failing backend
outcome the trace of either endpoint contains no `fileWrite`; and whenever a
trace does contain a `fileWrite`, the model state was loaded, the outcome
was success, and the trace is exactly the synthesis call on the full text
followed by that single write — the write to the target path happens only
after synthesis completes without error.  (The gTTS call of `api.py` is a
library call outside the repository; that its failure writes nothing is
modelled from spec §4.2.) -/
theorem no_artifact_on_failed_synthesis (text timestamp msg : String) :
    (∀ f, Event.fileWrite f ∉ (api.convert_text_to_speech text timestamp (some msg)).2) ∧
    (∀ f st, Event.fileWrite f ∉
      (api_local.convert_text_to_speech st text timestamp (.runtimeError msg)).2) ∧
    (∀ f st, Event.fileWrite f ∉
      (api_local.convert_text_to_speech st text timestamp (.otherError msg)).2) ∧
    (∀ gtts f, Event.fileWrite f ∈ (api.convert_text_to_speech text timestamp gtts).2 →
      gtts = none ∧ (api.convert_text_to_speech text timestamp gtts).2 =
        [.synthCall text, .fileWrite f]) ∧
    (∀ st outcome f,
      Event.fileWrite f ∈ (api_local.convert_text_to_speech st text timestamp outcome).2 →
      st = .loaded ∧ outcome = .ok ∧
      (api_local.convert_text_to_speech st text timestamp outcome).2 =
        [.synthCall text, .fileWrite f]) := by
  refine ⟨?_, ?_, ?_, ?_, ?_⟩
  · intro f hmem
    cases hv : (pyStrip text).data.isEmpty <;>
      simp [api.convert_text_to_speech, hv] at hmem
  · intro f st hmem
    cases st with
    | failed err => simp [api_local.convert_text_to_speech] at hmem
    | loaded =>
      cases hv : (pyStrip text).data.isEmpty with
      | true => simp [api_local.convert_text_to_speech, hv] at hmem
      | false =>
        cases hoom : hasSubstr "out of memory".data (pyLower msg).data <;>
          simp [api_local.convert_text_to_speech, hv, hoom] at hmem
  · intro f st hmem
    cases st with
    | failed err => simp [api_local.convert_text_to_speech] at hmem
    | loaded =>
      cases hv : (pyStrip text).data.isEmpty <;>
        simp [api_local.convert_text_to_speech, hv] at hmem
  · intro gtts f hmem
    cases hv : (pyStrip text).data.isEmpty with
    | true => simp [api.convert_text_to_speech, hv] at hmem
    | false =>
      cases gtts with
      | none =>
        have hf : f = timestamp ++ "_" ++ sanitize_filename (snippetSource text) ++ ".mp3" := by
          simpa [api.convert_text_to_speech, hv] using hmem
        subst hf
        exact ⟨rfl, by simp [api.convert_text_to_speech, hv]⟩
      | some m => simp [api.convert_text_to_speech, hv] at hmem
  · intro st outcome f hmem
    cases st with
    | failed err => simp [api_local.convert_text_to_speech] at hmem
    | loaded =>
      cases hv : (pyStrip text).data.isEmpty with
      | true => simp [api_local.convert_text_to_speech, hv] at hmem
      | false =>
        cases outcome with
        | ok =>
          have hf : f = timestamp ++ "_" ++ sanitize_filename (snippetSource text) ++ ".wav" := by
            simpa [api_local.convert_text_to_speech, hv] using hmem
          subst hf
          exact ⟨rfl, rfl, by simp [api_local.convert_text_to_speech, hv]⟩
        | runtimeError m =>
          cases hoom : hasSubstr "out of memory".data (pyLower m).data <;>
            simp [api_local.convert_text_to_speech, hv, hoom] at hmem
        | otherError m => simp [api_local.convert_text_to_speech, hv] at hmem

/-- C7 witness: a concrete failing cloud call writes nothing, and a concrete
local success trace is exactly synthesis followed by the single write. -/
theorem no_artifact_on_failed_synthesis_witness :
    Event.fileWrite "20240101_120000_hi.mp3" ∉
      (api.convert_text_to_speech "hi" "20240101_120000" (some "boom")).2 ∧
    (api_local.convert_text_to_speech .loaded "hi" "20240101_120000" .ok).2 =
      [.synthCall "hi", .fileWrite "20240101_120000_hi.wav"] :=
  ⟨(no_artifact_on_failed_synthesis "hi" "20240101_120000" "boom").1
      "20240101_120000_hi.mp3",
   ((no_artifact_on_failed_synthesis "hi" "20240101_120000" "boom").2.2.2.2
      .loaded .ok "20240101_120000_hi.wav" (by decide)).2.2⟩

/-- C9: In the local variant a RuntimeError whose message mentions
out-of-memory yields the dedicated 500 response whose detail suggests
shortening the input (it contains "Try shorter text"), and that detail
differs from the generic synthesis-failure detail for the same message, so
the out-of-memory condition is distinguishable from a generic failure. -/
theorem oom_reported_distinctly (text timestamp msg : String)
    (hv : (pyStrip text).data.isEmpty = false)
    (hoom : hasSubstr "out of memory".data (pyLower msg).data = true) :
    api_local.convert_text_to_speech .loaded text timestamp (.runtimeError msg) =
      (.httpError 500
        ("Error generating audio: CUDA out of memory. Try shorter text or a smaller batch if applicable. Details: "
          ++ msg),
       [.synthCall text]) ∧
    hasSubstr "Try shorter text".data
      ("Error generating audio: CUDA out of memory. Try shorter text or a smaller batch if applicable. Details: "
        ++ msg).data = true ∧
    ("Error generating audio: CUDA out of memory. Try shorter text or a smaller batch if applicable. Details: "
      ++ msg) ≠ "Error generating audio: " ++ msg := by
  refine ⟨?_, ?_, ?_⟩
  · simp [api_local.convert_text_to_speech, hv, hoom]
  · rw [String.data_append]
    exact hasSubstr_append_right _ (by decide)
  · intro hcontra
    have hlen := congrArg String.length hcontra
    rw [String.length_append, String.length_append] at hlen
    have h1 :
        ("Error generating audio: CUDA out of memory. Try shorter text or a smaller batch if applicable. Details: "
          : String).length = ("Error generating audio: " : String).length := by omega
    exact absurd h1 (by decide)

/-- C9 witness: a concrete CUDA out-of-memory message. -/
theorem oom_reported_distinctly_witness :
    api_local.convert_text_to_speech .loaded "Some long article" "20240101_120000"
        (.runtimeError "CUDA out of memory") =
      (.httpError 500
        "Error generating audio: CUDA out of memory. Try shorter text or a smaller batch if applicable. Details: CUDA out of memory",
       [.synthCall "Some long article"]) := by
  have h := (oom_reported_distinctly "Some long article" "20240101_120000"
    "CUDA out of memory" (by decide) (by decide)).1
  rw [h]
  decide

/-- C2 counterexample: for the all-punctuation input `"???"` the sanitized
snippet is empty, yet the produced filename is the timestamp, an underscore
and the extension — not "exactly the timestamp plus the extension, with no
dangling underscore" as the claim states. -/
theorem empty_snippet_dangling_underscore :
    sanitize_filename (snippetSource "???") = "" ∧
    (api_local.convert_text_to_speech .loaded "???" "20240101_120000" .ok).1 =
      .success "Audio saved as 20240101_120000_.wav" "20240101_120000_.wav" ∧
    "20240101_120000_.wav" ≠ "20240101_120000" ++ ".wav" := by decide

/-- C2 (amended): for every valid text whose sanitized snippet is empty the
conversion does not fail — it succeeds, and the produced filename is the
timestamp followed by an underscore and the extension (the
`f"{timestamp}_{snippet}"` format keeps its underscore even when the
snippet is empty). -/
theorem empty_snippet_filename (text timestamp : String)
    (hv : (pyStrip text).data.isEmpty = false)
    (hs : sanitize_filename (snippetSource text) = "") :
    api_local.convert_text_to_speech .loaded text timestamp .ok =
      (.success ("Audio saved as " ++ (timestamp ++ "_.wav")) (timestamp ++ "_.wav"),
       [.synthCall text, .fileWrite (timestamp ++ "_.wav")]) ∧
    api.convert_text_to_speech text timestamp none =
      (.success ("Audio saved as " ++ (timestamp ++ "_.mp3")) (timestamp ++ "_.mp3"),
       [.synthCall text, .fileWrite (timestamp ++ "_.mp3")]) := by
  have hwav : ("_" : String) ++ ".wav" = "_.wav" := by decide
  have hmp3 : ("_" : String) ++ ".mp3" = "_.mp3" := by decide
  constructor
  · simp [api_local.convert_text_to_speech, hv, hs, String.append_empty,
      String.append_assoc, hwav]
  · simp [api.convert_text_to_speech, hv, hs, String.append_empty,
      String.append_assoc, hmp3]

/-- C2 witness: the concrete all-punctuation input `"!!!"`. -/
theorem empty_snippet_filename_witness :
    api_local.convert_text_to_speech .loaded "!!!" "20240102_130000" .ok =
      (.success "Audio saved as 20240102_130000_.wav" "20240102_130000_.wav",
       [.synthCall "!!!", .fileWrite "20240102_130000_.wav"]) := by
  have h := (empty_snippet_filename "!!!" "20240102_130000" (by decide) (by decide)).1
  rw [h]
  decide

/-- C8 counterexample: the valid input `"café"` — Python's `\w` keeps the
Unicode letter `é`, so the snippet portion of the derived filename contains
a character outside `[a-z0-9_]`. -/
theorem snippet_charset_counterexample :
    (pyStrip "café").data.isEmpty = false ∧
    (api.convert_text_to_speech "café" "20240101_120000" none).1 =
      .success "Audio saved as 20240101_120000_café.mp3" "20240101_120000_café.mp3" ∧
    'é' ∈ (sanitize_filename (snippetSource "café")).data ∧
    isSnippetChar 'é' = false := by decide

/-- C8 (amended): for every valid ASCII text the derived filename is the
timestamp, an underscore, the sanitized snippet and the extension; the
snippet contains only characters in `[a-z0-9_]` and has length at most 50.
(For non-ASCII text the charset bound fails — see the counterexample —
because `\w` also matches non-ASCII word characters.) -/
theorem ascii_filename_shape (text timestamp : String)
    (hascii : ∀ c ∈ text.data, c.toNat < 128)
    (hv : (pyStrip text).data.isEmpty = false) :
    (api.convert_text_to_speech text timestamp none).1 =
      .success
        ("Audio saved as " ++
          (timestamp ++ "_" ++ sanitize_filename (snippetSource text) ++ ".mp3"))
        (timestamp ++ "_" ++ sanitize_filename (snippetSource text) ++ ".mp3") ∧
    (api_local.convert_text_to_speech .loaded text timestamp .ok).1 =
      .success
        ("Audio saved as " ++
          (timestamp ++ "_" ++ sanitize_filename (snippetSource text) ++ ".wav"))
        (timestamp ++ "_" ++ sanitize_filename (snippetSource text) ++ ".wav") ∧
    (∀ c ∈ (sanitize_filename (snippetSource text)).data, isSnippetChar c = true) ∧
    (sanitize_filename (snippetSource text)).length ≤ 50 := by
  refine ⟨?_, ?_, ?_, ?_⟩
  · simp [api.convert_text_to_speech, hv]
  · simp [api_local.convert_text_to_speech, hv]
  · apply sanitize_filename_ascii_chars
    intro c hc
    by_cases hdot : text.data.contains '.' = true
    · rw [snippetSource, if_pos hdot] at hc
      exact hascii c ((List.takeWhile_prefix _).subset hc)
    · rw [snippetSource, if_neg hdot] at hc
      exact hascii c hc
  · exact List.length_take_le _ _

/-- C8 witness: a concrete ASCII text and its derived filename. -/
theorem ascii_filename_shape_witness :
    (api.convert_text_to_speech "Blog post one" "20240103_140000" none).1 =
      .success "Audio saved as 20240103_140000_blog_post_one.mp3"
        "20240103_140000_blog_post_one.mp3" ∧
    (sanitize_filename (snippetSource "Blog post one")).length ≤ 50 := by
  have h := ascii_filename_shape "Blog post one" "20240103_140000" (by decide) (by decide)
  refine ⟨?_, h.2.2.2⟩
  rw [h.1]
  decide

end Blogcaster
